import Mathlib

/-!
Shallow embedding of the RAG-LangGraph orchestration core
(src/agents/delegating-agent.js, src/agents/rag-agent.js,
src/tools/chart-tool.js) and proofs of the specified properties.

External collaborators (the Weaviate store client, the language-model
client, and JSON.parse for string tool input) are modelled as an explicit
environment of fallible functions; the agents' own code is translated
statement by statement.
-/

namespace RAGLangGraph

/-- Does the first character list start the second one? -/
def charsStart : List Char → List Char → Bool
  | [], _ => true
  | _ :: _, [] => false
  | a :: as, b :: bs => a == b && charsStart as bs

/-- Does the first character list occur contiguously in the second? -/
def charsContain (needle : List Char) : List Char → Bool
  | [] => charsStart needle []
  | b :: bs => charsStart needle (b :: bs) || charsContain needle bs

/-- JS `haystack.includes(needle)`: substring containment. -/
def strIncludes (haystack needle : String) : Bool :=
  charsContain needle.toList haystack.toList

/-- JS `s.toLowerCase()`: lower-case every character. -/
def strToLower (s : String) : String :=
  ⟨s.data.map Char.toLower⟩

/-- A document returned by the store (`fileId question answer tenant`). -/
structure Document where
  fileId : String
  question : String
  answer : String
  tenant : String
deriving Repr, DecidableEq

/-- Result of `DelegatingAgent.analyzeQuery`. -/
structure Analysis where
  useRAG : Bool
  useChart : Bool
  chartType : String
  reasoning : String
deriving Repr, DecidableEq

/-- The `data` object handed to the chart tool: JS object fields that the
tool reads (`data.labels`, `data.label`, `data.values`), each possibly
absent (the `||` fallbacks in `generateChartConfig`). -/
structure ChartData where
  labels : Option (List String)
  label : Option String
  values : Option (List Int)
deriving Repr, DecidableEq

/-- Names of the properties every JS object literal inherits from
`Object.prototype`. Looking any of these up on the `colors` or
`sampleData` dictionary literals yields a truthy inherited member (a
built-in function, or `Object.prototype` itself for `__proto__`), so the
`|| ...bar` fallback does not fire for these keys. -/
def objectProtoProps : List String :=
  ["constructor", "hasOwnProperty", "isPrototypeOf", "propertyIsEnumerable",
   "toLocaleString", "toString", "valueOf",
   "__defineGetter__", "__defineSetter__", "__lookupGetter__", "__lookupSetter__", "__proto__"]

/-- The JS value of `colors[chartType] || colors.bar`: an own array
entry of the dictionary (or the bar fallback), or a truthy member
inherited from `Object.prototype` when `chartType` is one of its
property names. -/
inductive ColorsValue where
  | palette (cs : List String)
  | protoMember (name : String)
deriving Repr, DecidableEq

/-- The JS value sitting in the `data` slot of a chart-tool input:
`undefined` or `null` (property reads throw a TypeError), a data
object, or a truthy `Object.prototype` member (property reads yield
`undefined`, so every `||` fallback fires). -/
inductive JsData where
  | undef
  | obj (d : ChartData)
  | protoMember (name : String)
deriving Repr, DecidableEq

/-- The Chart.js configuration built by `ChartTool.generateChartConfig`,
with the nested JS object flattened to the fields the code sets. -/
structure ChartConfig where
  type : String
  labels : List String
  datasetLabel : String
  values : List Int
  backgroundColor : ColorsValue
  borderColor : Option String
  borderWidth : Nat
  title : String
  hasScales : Bool
deriving Repr, DecidableEq

/-- Return value of `ChartTool._call` / `ChartTool.invoke`. -/
structure ChartResult where
  success : Bool
  chartConfig : Option ChartConfig
  error : Option String
  message : String
deriving Repr, DecidableEq

/-- Return value of `RAGAgent.processQuery`. -/
structure RAGResult where
  answer : String
  fileIds : List String
  references : List Document
deriving Repr, DecidableEq

/-- The Response object assembled by `DelegatingAgent.processQuery`. -/
structure Response where
  answer : String
  references : List Document
  fileIds : List String
  chartConfig : Option ChartConfig
  toolsUsed : List String
deriving Repr, DecidableEq

/-- The parsed form of a string input to `ChartTool._call`
(what `JSON.parse` would yield). -/
structure ParsedChartInput where
  chartType : String
  data : JsData
  title : Option String
deriving Repr, DecidableEq

/-- The input to `ChartTool._call`: either an object or a string to be
parsed (`typeof input === 'string' ? JSON.parse(input) : input`). -/
inductive ChartInputValue where
  | obj (chartType : String) (data : JsData) (title : Option String)
  | str (s : String)
deriving Repr, DecidableEq

/-- The external collaborators: the store search, the language model
(given the context block and the user question, returns the generated
content), and `JSON.parse` for string chart-tool input. Each may fault
(`Except.error` models a thrown exception). -/
structure Env where
  searchDocuments : String → String → Nat → Except String (List Document)
  llmInvoke : String → String → Except String String
  jsonParse : String → Except String ParsedChartInput

namespace ChartTool

/-- Source `ChartTool.getColors`: the JS lookup `colors[chartType]`
finds the dictionary's own entries first, then the members inherited
from `Object.prototype` (truthy, so `|| colors.bar` does not fire for
them), and only for keys that are neither does `|| colors.bar` supply
the bar palette. -/
def getColors (chartType : String) : ColorsValue :=
  if chartType == "bar" then
    .palette ["#FF6384", "#36A2EB", "#FFCE56", "#4BC0C0", "#9966FF"]
  else if chartType == "line" then
    .palette ["#36A2EB"]
  else if chartType == "pie" then
    .palette ["#FF6384", "#36A2EB", "#FFCE56", "#4BC0C0", "#9966FF"]
  else if chartType == "doughnut" then
    .palette ["#FF6384", "#36A2EB", "#FFCE56", "#4BC0C0", "#9966FF"]
  else if objectProtoProps.contains chartType then
    .protoMember chartType
  else
    .palette ["#FF6384", "#36A2EB", "#FFCE56", "#4BC0C0", "#9966FF"]

/-- Source `ChartTool.generateChartConfig`: reads `data.labels`,
`data.label`, `data.values` with `||` defaults. When `data` is
`undefined` or `null` the first read (`data.labels`) throws a TypeError,
modelled as `Except.error`; when `data` is an inherited prototype
member, every read yields `undefined` and all defaults fire. -/
def generateChartConfig (chartType : String) (data : JsData) (title : String) :
    Except String ChartConfig :=
  match data with
  | .undef =>
    .error "Cannot read properties of undefined (reading 'labels')"
  | .obj d =>
    .ok { type := chartType
          labels := d.labels.getD ["Label 1", "Label 2", "Label 3"]
          datasetLabel := d.label.getD "Dataset"
          values := d.values.getD [10, 20, 30]
          backgroundColor := getColors chartType
          borderColor := if chartType == "line" then some "#36A2EB" else none
          borderWidth := 1
          title := title
          hasScales := !(chartType == "pie") && !(chartType == "doughnut") }
  | .protoMember _ =>
    .ok { type := chartType
          labels := ["Label 1", "Label 2", "Label 3"]
          datasetLabel := "Dataset"
          values := [10, 20, 30]
          backgroundColor := getColors chartType
          borderColor := if chartType == "line" then some "#36A2EB" else none
          borderWidth := 1
          title := title
          hasScales := !(chartType == "pie") && !(chartType == "doughnut") }

/-- The object branch of `ChartTool._call`: destructure the input with
`title = 'Chart'` default and build the config inside the try block — a
throw from `generateChartConfig` (undefined `data`) is caught and
reported as `success: false`. -/
def callObj (chartType : String) (data : JsData) (titleOpt : Option String) : ChartResult :=
  let title := titleOpt.getD "Chart"
  match generateChartConfig chartType data title with
  | .ok cfg =>
    { success := true
      chartConfig := some cfg
      error := none
      message := "Generated " ++ chartType ++ " chart configuration successfully" }
  | .error e =>
    { success := false
      chartConfig := none
      error := some e
      message := "Failed to generate chart configuration" }

/-- Source `ChartTool._call` and `ChartTool.invoke`: a string input
goes through `JSON.parse` (a parse failure is caught and reported as
`success: false`); either kind of input is then destructured and handed
to `generateChartConfig`. -/
def invoke (jsonParse : String → Except String ParsedChartInput) :
    ChartInputValue → ChartResult
  | .obj chartType data title => callObj chartType data title
  | .str s =>
    match jsonParse s with
    | .ok p => callObj p.chartType p.data p.title
    | .error e =>
      { success := false
        chartConfig := none
        error := some e
        message := "Failed to generate chart configuration" }

/-- Source `ChartTool.generateSampleData`: the JS lookup
`sampleData[chartType]` finds the dictionary's own entries first, then
the truthy members inherited from `Object.prototype` (for which
`|| sampleData.bar` does not fire), and only otherwise falls back to the
bar sample set. -/
def generateSampleData (chartType : String) : JsData :=
  if chartType == "bar" then
    .obj { labels := some ["January", "February", "March", "April", "May"]
           values := some [65, 59, 80, 81, 56]
           label := some "Sales Data" }
  else if chartType == "line" then
    .obj { labels := some ["Jan", "Feb", "Mar", "Apr", "May"]
           values := some [12, 19, 3, 5, 2]
           label := some "Trend Data" }
  else if chartType == "pie" then
    .obj { labels := some ["Red", "Blue", "Yellow", "Green", "Purple"]
           values := some [12, 19, 3, 5, 2]
           label := some "Distribution" }
  else if chartType == "doughnut" then
    .obj { labels := some ["Red", "Blue", "Yellow", "Green"]
           values := some [12, 19, 3, 5]
           label := some "Categories" }
  else if objectProtoProps.contains chartType then
    .protoMember chartType
  else
    .obj { labels := some ["January", "February", "March", "April", "May"]
           values := some [65, 59, 80, 81, 56]
           label := some "Sales Data" }

end ChartTool

namespace RAGAgent

/-- The short-circuit result when the store returns no documents. -/
def noInfoResult : RAGResult :=
  { answer := "I couldn't find any relevant information in the knowledge base for your query."
    fileIds := []
    references := [] }

/-- The catch-branch fallback of `RAGAgent.processQuery`. -/
def errorResult : RAGResult :=
  { answer := "I encountered an error while processing your query. Please try again."
    fileIds := []
    references := [] }

/-- The context block: each document rendered as question/answer, joined
by blank lines. -/
def buildContext (docs : List Document) : String :=
  String.intercalate "\n\n"
    (docs.map fun d => "Question: " ++ d.question ++ "\nAnswer: " ++ d.answer)

/-- The try-block body of `RAGAgent.processQuery`: search top 5, on zero
documents short-circuit without touching the language model, otherwise
build the context, call the language model, and assemble the result. -/
def processQueryE (env : Env) (userQuery tenant : String) : Except String RAGResult := do
  let relevantDocs ← env.searchDocuments userQuery tenant 5
  if relevantDocs.isEmpty then
    pure noInfoResult
  else
    let fileIds := relevantDocs.map (·.fileId)
    let context := buildContext relevantDocs
    let content ← env.llmInvoke context userQuery
    let references := relevantDocs.map fun d =>
      { fileId := d.fileId, question := d.question, answer := d.answer, tenant := d.tenant }
    pure { answer := content, fileIds := fileIds, references := references }

/-- Source `RAGAgent.processQuery`: the try/catch wrapper — any internal fault
becomes the fixed apologetic result. -/
def processQuery (env : Env) (userQuery tenant : String) : RAGResult :=
  match processQueryE env userQuery tenant with
  | .ok r => r
  | .error _ => errorResult

end RAGAgent

namespace DelegatingAgent

/-- Source `DelegatingAgent.analyzeQuery`: keyword routing over the lower-cased
query text. -/
def analyzeQuery (userQuery : String) : Analysis :=
  let query := strToLower userQuery
  let useRAG := strIncludes query "what" || strIncludes query "how" || strIncludes query "why" ||
    strIncludes query "search" || strIncludes query "find" || strIncludes query "machine learning" ||
    strIncludes query "neural network" || strIncludes query "deep learning" || strIncludes query "ai"
  let useChart := strIncludes query "chart" || strIncludes query "graph" || strIncludes query "visualize" ||
    strIncludes query "plot" || strIncludes query "bar" || strIncludes query "pie" ||
    strIncludes query "line" || strIncludes query "doughnut"
  let chartType :=
    if strIncludes query "pie" then "pie"
    else if strIncludes query "line" then "line"
    else if strIncludes query "doughnut" then "doughnut"
    else "bar"
  { useRAG := useRAG
    useChart := useChart
    chartType := chartType
    reasoning := "Analysis based on query content: " ++ userQuery }

/-- Source `DelegatingAgent.prepareChartInput`: sample data chosen from the
chart type, title naming the query. -/
def prepareChartInput (userQuery chartType : String) : ChartInputValue :=
  .obj chartType (ChartTool.generateSampleData chartType)
    (some ("Chart for: " ++ userQuery))

/-- Source `DelegatingAgent.provideDirectAnswer`: fixed keyword lookup. -/
def provideDirectAnswer (userQuery : String) : String :=
  let query := strToLower userQuery
  if strIncludes query "hello" || strIncludes query "how are you" then
    "Hello! I am doing well, thank you for asking. How can I help you today?"
  else if strIncludes query "weather" then
    "I cannot provide real-time weather information, but I can help you with other questions!"
  else if strIncludes query "joke" then
    "Why did the AI go to therapy? Because it had too many neural issues! 😄"
  else
    "I understand your query. Let me provide you with a helpful response based on my knowledge."

/-- Source `DelegatingAgent.generateCombinedResponse`: the multi-tool narration
template (`toolsUsed.join(' and ')`). -/
def generateCombinedResponse (userQuery : String) (response : Response) : String :=
  "I've analyzed your query: \"" ++ userQuery ++ "\" and used " ++
    String.intercalate " and " response.toolsUsed ++
    " to gather information. " ++ response.answer

/-- A settled task result, tagged by the capability that produced it. -/
inductive ToolResult where
  | rag (r : RAGResult)
  | chart (c : ChartResult)
deriving Repr, DecidableEq

/-- The merge step of `results.forEach((result, index) => ...)`: dispatch
on the `toolsUsed` entry pushed alongside the task. -/
def mergeResult (resp : Response) (task : String × ToolResult) : Response :=
  if task.fst == "RAG" then
    match task.snd with
    | .rag r => { resp with answer := r.answer, fileIds := r.fileIds, references := r.references }
    | .chart _ => resp
  else if task.fst == "Chart" then
    match task.snd with
    | .chart c => if c.success then { resp with chartConfig := c.chartConfig } else resp
    | .rag _ => resp
  else resp

/-- The catch-branch Response of `DelegatingAgent.processQuery`. -/
def errorResponse : Response :=
  { answer := "I encountered an error while processing your request. Please try again."
    references := []
    fileIds := []
    chartConfig := none
    toolsUsed := ["Error"] }

/-- The try-block body of `DelegatingAgent.processQuery`. The `promises`
array and the `toolsUsed` pushes happen in lockstep (RAG first, then
Chart), so a task is modelled as the pair of the pushed tool name and its
settled result; `Promise.all` preserves that order and the `forEach`
merge dispatches on `toolsUsed[index]`. -/
def processQueryE (env : Env) (userQuery tenant : String) : Except String Response :=
  let analysis := analyzeQuery userQuery
  let tasks : List (String × ToolResult) :=
    (if analysis.useRAG then
      [("RAG", ToolResult.rag (RAGAgent.processQuery env userQuery tenant))]
     else []) ++
    (if analysis.useChart then
      [("Chart", ToolResult.chart
        (ChartTool.invoke env.jsonParse (prepareChartInput userQuery analysis.chartType)))]
     else [])
  let direct := !analysis.useRAG && !analysis.useChart
  let base : Response :=
    { answer := if direct then provideDirectAnswer userQuery else ""
      references := []
      fileIds := []
      chartConfig := none
      toolsUsed := tasks.map Prod.fst ++ (if direct then ["Direct"] else []) }
  let merged := tasks.foldl mergeResult base
  let final :=
    if merged.toolsUsed.length > 1 then
      { merged with answer := generateCombinedResponse userQuery merged }
    else merged
  .ok final

/-- Source `DelegatingAgent.processQuery`: the top-level try/catch — any
uncaught fault is converted into `errorResponse`. -/
def processQuery (env : Env) (userQuery tenant : String) : Response :=
  match processQueryE env userQuery tenant with
  | .ok r => r
  | .error _ => errorResponse

end DelegatingAgent

/-- Mock documents mirroring the fallback store data in
`weaviate-setup.js` (`searchDocuments` mock branch). -/
def mockDocs : List Document :=
  [{ fileId := "doc001"
     question := "What is machine learning?"
     answer := "Machine learning is a subset of artificial intelligence that enables computers to learn and improve from experience without being explicitly programmed."
     tenant := "tenant1" },
   { fileId := "doc002"
     question := "How does a neural network work?"
     answer := "A neural network is a series of algorithms that attempts to recognize underlying relationships in a set of data through a process that mimics the way the human brain operates."
     tenant := "tenant1" }]

/-- A store search that always finds the mock documents. -/
def mockSearch : String → String → Nat → Except String (List Document) :=
  fun _ _ _ => .ok mockDocs

/-- A JSON parser that rejects every string. -/
def jpErr : String → Except String ParsedChartInput :=
  fun _ => .error "Unexpected token"

/-- A language model that always answers with one fixed text. -/
def llmA : String → String → Except String String :=
  fun _ _ => .ok "Answer variant A."

/-- A second language model answering with a different fixed text. -/
def llmB : String → String → Except String String :=
  fun _ _ => .ok "Answer variant B."

/-- A concrete environment for evaluating the orchestrator. -/
def mockEnv : Env :=
  { searchDocuments := mockSearch
    llmInvoke := llmA
    jsonParse := jpErr }

/-- An environment whose store finds nothing and whose language model is
unreachable (so a call into it would fault). -/
def emptyStoreEnv : Env :=
  { searchDocuments := fun _ _ _ => .ok []
    llmInvoke := fun _ _ => .error "language model unavailable"
    jsonParse := jpErr }

open DelegatingAgent ChartTool RAGAgent in
/-- Closed form of the orchestrator when routing selects no capability. -/
theorem processQuery_direct (env : Env) (q t : String)
    (h1 : (analyzeQuery q).useRAG = false) (h2 : (analyzeQuery q).useChart = false) :
    DelegatingAgent.processQuery env q t =
      { answer := provideDirectAnswer q
        references := []
        fileIds := []
        chartConfig := none
        toolsUsed := ["Direct"] } := by
  unfold DelegatingAgent.processQuery DelegatingAgent.processQueryE
  simp [h1, h2]

open DelegatingAgent ChartTool RAGAgent in
/-- Closed form of the orchestrator when only retrieval is selected. -/
theorem processQuery_ragOnly (env : Env) (q t : String)
    (h1 : (analyzeQuery q).useRAG = true) (h2 : (analyzeQuery q).useChart = false) :
    DelegatingAgent.processQuery env q t =
      { answer := (RAGAgent.processQuery env q t).answer
        references := (RAGAgent.processQuery env q t).references
        fileIds := (RAGAgent.processQuery env q t).fileIds
        chartConfig := none
        toolsUsed := ["RAG"] } := by
  unfold DelegatingAgent.processQuery DelegatingAgent.processQueryE
  simp [h1, h2, mergeResult]

open DelegatingAgent ChartTool RAGAgent in
/-- Closed form of the orchestrator when only visualization is selected:
the merged chartConfig is the config when `generateChartConfig`
succeeds, and stays null when it throws (`success: false`). -/
theorem processQuery_chartOnly (env : Env) (q t : String)
    (h1 : (analyzeQuery q).useRAG = false) (h2 : (analyzeQuery q).useChart = true) :
    DelegatingAgent.processQuery env q t =
      { answer := ""
        references := []
        fileIds := []
        chartConfig := (generateChartConfig (analyzeQuery q).chartType
          (generateSampleData (analyzeQuery q).chartType) ("Chart for: " ++ q)).toOption
        toolsUsed := ["Chart"] } := by
  unfold DelegatingAgent.processQuery DelegatingAgent.processQueryE
  cases hg : generateChartConfig (analyzeQuery q).chartType
      (generateSampleData (analyzeQuery q).chartType) ("Chart for: " ++ q) with
  | ok cfg =>
    simp [h1, h2, mergeResult, prepareChartInput, ChartTool.invoke, ChartTool.callObj, hg,
      Except.toOption]
  | error e =>
    simp [h1, h2, mergeResult, prepareChartInput, ChartTool.invoke, ChartTool.callObj, hg,
      Except.toOption]

open DelegatingAgent ChartTool RAGAgent in
/-- Closed form of the orchestrator when both capabilities are selected. -/
theorem processQuery_both (env : Env) (q t : String)
    (h1 : (analyzeQuery q).useRAG = true) (h2 : (analyzeQuery q).useChart = true) :
    DelegatingAgent.processQuery env q t =
      { answer := generateCombinedResponse q
          { answer := (RAGAgent.processQuery env q t).answer
            references := (RAGAgent.processQuery env q t).references
            fileIds := (RAGAgent.processQuery env q t).fileIds
            chartConfig := (generateChartConfig (analyzeQuery q).chartType
              (generateSampleData (analyzeQuery q).chartType) ("Chart for: " ++ q)).toOption
            toolsUsed := ["RAG", "Chart"] }
        references := (RAGAgent.processQuery env q t).references
        fileIds := (RAGAgent.processQuery env q t).fileIds
        chartConfig := (generateChartConfig (analyzeQuery q).chartType
          (generateSampleData (analyzeQuery q).chartType) ("Chart for: " ++ q)).toOption
        toolsUsed := ["RAG", "Chart"] } := by
  unfold DelegatingAgent.processQuery DelegatingAgent.processQueryE
  cases hg : generateChartConfig (analyzeQuery q).chartType
      (generateSampleData (analyzeQuery q).chartType) ("Chart for: " ++ q) with
  | ok cfg =>
    simp [h1, h2, mergeResult, prepareChartInput, ChartTool.invoke, ChartTool.callObj, hg,
      Except.toOption]
  | error e =>
    simp [h1, h2, mergeResult, prepareChartInput, ChartTool.invoke, ChartTool.callObj, hg,
      Except.toOption]

open DelegatingAgent ChartTool in
/-- The router only ever emits the four enumerated chart types, for
which the sample-data lookup is an own entry and `generateChartConfig`
succeeds. -/
theorem router_chartConfig_ok (q title : String) :
    ∃ cfg, generateChartConfig (analyzeQuery q).chartType
      (generateSampleData (analyzeQuery q).chartType) title = .ok cfg := by
  have h : (analyzeQuery q).chartType = "pie" ∨ (analyzeQuery q).chartType = "line" ∨
      (analyzeQuery q).chartType = "doughnut" ∨ (analyzeQuery q).chartType = "bar" := by
    simp only [DelegatingAgent.analyzeQuery]
    split_ifs <;> simp
  rcases h with h | h | h | h <;> rw [h] <;> exact ⟨_, rfl⟩

/-- Retrieval output fields other than the answer text do not depend on
the language model, as long as neither model call faults. -/
theorem rag_llm_stable (search : String → String → Nat → Except String (List Document))
    (jp : String → Except String ParsedChartInput)
    (llm1 llm2 : String → String → Except String String) (q t : String)
    (h1 : ∀ c u, ∃ s, llm1 c u = .ok s) (h2 : ∀ c u, ∃ s, llm2 c u = .ok s) :
    (RAGAgent.processQuery ⟨search, llm1, jp⟩ q t).fileIds =
      (RAGAgent.processQuery ⟨search, llm2, jp⟩ q t).fileIds ∧
    (RAGAgent.processQuery ⟨search, llm1, jp⟩ q t).references =
      (RAGAgent.processQuery ⟨search, llm2, jp⟩ q t).references := by
  unfold RAGAgent.processQuery RAGAgent.processQueryE
  cases hsr : search q t 5 with
  | error e => simp [hsr, Bind.bind, Except.bind]
  | ok docs =>
    by_cases hd : docs.isEmpty
    · simp [hsr, hd, Bind.bind, Except.bind]
    · obtain ⟨s1, e1⟩ := h1 (RAGAgent.buildContext docs) q
      obtain ⟨s2, e2⟩ := h2 (RAGAgent.buildContext docs) q
      simp [hsr, hd, e1, e2, Bind.bind, Except.bind, Functor.map, Except.map, Pure.pure, Except.pure]

end RAGLangGraph

namespace RAGLangGraph

/-- C1: for every environment (store and language model may fault
arbitrarily), the orchestrator entry point never raises: its try-block
body never produces an error (so the result is the body's well-formed
Response, and the catch branch that would convert an uncaught fault into
`errorResponse` is never needed), and the returned Response always
records at least one tool. -/
theorem claim_C1_orchestrate_never_raises (env : Env) (q t : String) :
    DelegatingAgent.processQueryE env q t = .ok (DelegatingAgent.processQuery env q t) ∧
    (DelegatingAgent.processQuery env q t).toolsUsed ≠ [] := by
  refine ⟨rfl, ?_⟩
  cases h1 : (DelegatingAgent.analyzeQuery q).useRAG <;>
    cases h2 : (DelegatingAgent.analyzeQuery q).useChart
  · rw [processQuery_direct env q t h1 h2]; simp
  · rw [processQuery_chartOnly env q t h1 h2]; simp
  · rw [processQuery_ragOnly env q t h1 h2]; simp
  · rw [processQuery_both env q t h1 h2]; simp

/-- Witness for C1 at a concrete environment and query. -/
theorem claim_C1_witness :
    DelegatingAgent.processQueryE mockEnv "hello" "tenant1" =
      .ok (DelegatingAgent.processQuery mockEnv "hello" "tenant1") ∧
    (DelegatingAgent.processQuery mockEnv "hello" "tenant1").toolsUsed ≠ [] :=
  claim_C1_orchestrate_never_raises mockEnv "hello" "tenant1"

/-- C2: `toolsUsed` is exactly the tools queued by the router (RAG then
Chart, with Direct as the single terminal entry when neither capability
is selected); references can be non-empty only when RAG was used and
chartConfig non-null only when Chart was used. -/
theorem claim_C2_response_invariants (env : Env) (q t : String) :
    (DelegatingAgent.processQuery env q t).toolsUsed =
      ((if (DelegatingAgent.analyzeQuery q).useRAG then ["RAG"] else []) ++
       (if (DelegatingAgent.analyzeQuery q).useChart then ["Chart"] else []) ++
       (if !(DelegatingAgent.analyzeQuery q).useRAG && !(DelegatingAgent.analyzeQuery q).useChart
        then ["Direct"] else [])) ∧
    ((DelegatingAgent.processQuery env q t).references ≠ [] →
      "RAG" ∈ (DelegatingAgent.processQuery env q t).toolsUsed) ∧
    ((DelegatingAgent.processQuery env q t).chartConfig ≠ none →
      "Chart" ∈ (DelegatingAgent.processQuery env q t).toolsUsed) := by
  cases h1 : (DelegatingAgent.analyzeQuery q).useRAG <;>
    cases h2 : (DelegatingAgent.analyzeQuery q).useChart
  · rw [processQuery_direct env q t h1 h2]; simp [h1, h2]
  · rw [processQuery_chartOnly env q t h1 h2]; simp [h1, h2]
  · rw [processQuery_ragOnly env q t h1 h2]; simp [h1, h2]
  · rw [processQuery_both env q t h1 h2]; simp [h1, h2]

/-- Witness for C2: a retrieval query with non-empty references, and a
visualization query with a non-null chart config. -/
theorem claim_C2_witness :
    ((DelegatingAgent.processQuery mockEnv "what is machine learning" "tenant1").references ≠ [] ∧
     "RAG" ∈ (DelegatingAgent.processQuery mockEnv "what is machine learning" "tenant1").toolsUsed) ∧
    ((DelegatingAgent.processQuery mockEnv "draw a pie" "tenant1").chartConfig ≠ none ∧
     "Chart" ∈ (DelegatingAgent.processQuery mockEnv "draw a pie" "tenant1").toolsUsed) :=
  ⟨⟨by decide, (claim_C2_response_invariants mockEnv "what is machine learning" "tenant1").2.1 (by decide)⟩,
   ⟨by decide, (claim_C2_response_invariants mockEnv "draw a pie" "tenant1").2.2 (by decide)⟩⟩

/-- C3: when the router selects both capabilities, `toolsUsed` is
exactly RAG then Chart, the chart config is present, and the answer is
the combined-narration template naming the query and the tools, followed
by the retrieval answer. -/
theorem claim_C3_combined_narration (env : Env) (q t : String)
    (h1 : (DelegatingAgent.analyzeQuery q).useRAG = true)
    (h2 : (DelegatingAgent.analyzeQuery q).useChart = true) :
    (DelegatingAgent.processQuery env q t).toolsUsed = ["RAG", "Chart"] ∧
    (DelegatingAgent.processQuery env q t).chartConfig ≠ none ∧
    (DelegatingAgent.processQuery env q t).answer =
      "I've analyzed your query: \"" ++ q ++ "\" and used RAG and Chart to gather information. " ++
        (RAGAgent.processQuery env q t).answer := by
  rw [processQuery_both env q t h1 h2]
  obtain ⟨cfg, hcfg⟩ := router_chartConfig_ok q ("Chart for: " ++ q)
  refine ⟨rfl, by simp [hcfg, Except.toOption], ?_⟩
  show "I've analyzed your query: \"" ++ q ++ "\" and used " ++
      String.intercalate " and " ["RAG", "Chart"] ++ " to gather information. " ++
      (RAGAgent.processQuery env q t).answer = _
  simp only [String.append_assoc]
  congr 1

/-- Witness for C3 at a query selecting both capabilities. -/
theorem claim_C3_witness :
    (DelegatingAgent.analyzeQuery "what is a bar chart").useRAG = true ∧
    (DelegatingAgent.analyzeQuery "what is a bar chart").useChart = true ∧
    ((DelegatingAgent.processQuery mockEnv "what is a bar chart" "tenant1").toolsUsed = ["RAG", "Chart"] ∧
     (DelegatingAgent.processQuery mockEnv "what is a bar chart" "tenant1").chartConfig ≠ none ∧
     (DelegatingAgent.processQuery mockEnv "what is a bar chart" "tenant1").answer =
       "I've analyzed your query: \"" ++ "what is a bar chart" ++
         "\" and used RAG and Chart to gather information. " ++
         (RAGAgent.processQuery mockEnv "what is a bar chart" "tenant1").answer) :=
  ⟨by decide, by decide,
    claim_C3_combined_narration mockEnv "what is a bar chart" "tenant1" (by decide) (by decide)⟩

/-- C4 counterexample: the query "Hello, how are you?" contains the
retrieval keyword "how", so the router sends it to RAG, not Direct; the
claimed Response (toolsUsed = [Direct] with the fixed greeting) is not
what the code returns. -/
theorem claim_C4_counterexample :
    ¬((DelegatingAgent.processQuery mockEnv "Hello, how are you?" "tenant1").toolsUsed = ["Direct"] ∧
      (DelegatingAgent.processQuery mockEnv "Hello, how are you?" "tenant1").answer =
        "Hello! I am doing well, thank you for asking. How can I help you today?") := by
  decide

/-- C4 amended: for every environment, "Hello, how are you?" routes to
the retrieval capability (`toolsUsed = [RAG]`) because the lower-cased
text contains "how"; the fixed greeting reply is what the Direct adapter
would return for this text, but the orchestrator never reaches it here. -/
theorem claim_C4_amended_greeting_routes_to_rag (env : Env) :
    (DelegatingAgent.processQuery env "Hello, how are you?" "tenant1").toolsUsed = ["RAG"] ∧
    DelegatingAgent.provideDirectAnswer "Hello, how are you?" =
      "Hello! I am doing well, thank you for asking. How can I help you today?" := by
  refine ⟨?_, by decide⟩
  rw [processQuery_ragOnly env "Hello, how are you?" "tenant1" (by decide) (by decide)]

/-- C5 counterexample: for "Create a bar chart of sales data" the code
does return toolsUsed = [Chart] and a bar chart config, but the answer is
the empty string (the Chart-only path never sets it), so the claim's
"answer non-empty" conjunct fails. -/
theorem claim_C5_counterexample :
    ¬((DelegatingAgent.processQuery mockEnv "Create a bar chart of sales data" "tenant1").toolsUsed = ["Chart"] ∧
      Option.map ChartConfig.type
        (DelegatingAgent.processQuery mockEnv "Create a bar chart of sales data" "tenant1").chartConfig =
        some "bar" ∧
      (DelegatingAgent.processQuery mockEnv "Create a bar chart of sales data" "tenant1").answer ≠ "") := by
  decide

/-- C5 amended: for every environment, "Create a bar chart of sales
data" yields toolsUsed = [Chart] and a chart config of type "bar", and
the answer is the empty string (not a non-empty acknowledgement). -/
theorem claim_C5_amended_chart_only_empty_answer (env : Env) :
    (DelegatingAgent.processQuery env "Create a bar chart of sales data" "tenant1").toolsUsed = ["Chart"] ∧
    Option.map ChartConfig.type
      (DelegatingAgent.processQuery env "Create a bar chart of sales data" "tenant1").chartConfig =
      some "bar" ∧
    (DelegatingAgent.processQuery env "Create a bar chart of sales data" "tenant1").answer = "" := by
  rw [processQuery_chartOnly env "Create a bar chart of sales data" "tenant1" (by decide) (by decide)]
  exact ⟨rfl, by decide, rfl⟩

/-- C6: when the store search returns zero documents, the retrieval
adapter short-circuits to the fixed no-information result with empty
fileIds and references, its output does not depend on the language model
(which is never invoked), and the overall Response still lists RAG, not
Error, among its tools. -/
theorem claim_C6_zero_docs_short_circuit (env : Env) (q t : String)
    (hs : env.searchDocuments q t 5 = .ok [])
    (hr : (DelegatingAgent.analyzeQuery q).useRAG = true) :
    RAGAgent.processQuery env q t = RAGAgent.noInfoResult ∧
    (∀ llm2 : String → String → Except String String,
      RAGAgent.processQuery ⟨env.searchDocuments, llm2, env.jsonParse⟩ q t = RAGAgent.noInfoResult) ∧
    "RAG" ∈ (DelegatingAgent.processQuery env q t).toolsUsed ∧
    "Error" ∉ (DelegatingAgent.processQuery env q t).toolsUsed := by
  have henv : RAGAgent.processQuery env q t = RAGAgent.noInfoResult := by
    unfold RAGAgent.processQuery RAGAgent.processQueryE
    simp [hs, Bind.bind, Except.bind, Pure.pure, Except.pure]
  have hrag : ∀ llm2 : String → String → Except String String,
      RAGAgent.processQuery ⟨env.searchDocuments, llm2, env.jsonParse⟩ q t = RAGAgent.noInfoResult := by
    intro llm2
    unfold RAGAgent.processQuery RAGAgent.processQueryE
    simp [hs, Bind.bind, Except.bind, Pure.pure, Except.pure]
  refine ⟨henv, hrag, ?_, ?_⟩ <;>
  · cases hc : (DelegatingAgent.analyzeQuery q).useChart
    · rw [processQuery_ragOnly env q t hr hc]; simp
    · rw [processQuery_both env q t hr hc]; simp

/-- Witness for C6: an environment whose store is empty and whose
language model would fault if called. -/
theorem claim_C6_witness :
    emptyStoreEnv.searchDocuments "what is quantum computing" "tenant1" 5 = .ok [] ∧
    (DelegatingAgent.analyzeQuery "what is quantum computing").useRAG = true ∧
    RAGAgent.processQuery emptyStoreEnv "what is quantum computing" "tenant1" = RAGAgent.noInfoResult ∧
    "RAG" ∈ (DelegatingAgent.processQuery emptyStoreEnv "what is quantum computing" "tenant1").toolsUsed :=
  ⟨rfl, by decide,
    (claim_C6_zero_docs_short_circuit emptyStoreEnv "what is quantum computing" "tenant1" rfl (by decide)).1,
    (claim_C6_zero_docs_short_circuit emptyStoreEnv "what is quantum computing" "tenant1" rfl (by decide)).2.2.1⟩

/-- C7: any query containing both "pie" and "graph" (after lower-casing)
selects visualization with chart type "pie"; in general the chart type
follows the priority pie, then line, then doughnut, defaulting to bar. -/
theorem claim_C7_chartType_priority (q : String) :
    (strIncludes (strToLower q) "pie" = true → strIncludes (strToLower q) "graph" = true →
      (DelegatingAgent.analyzeQuery q).useChart = true ∧
      (DelegatingAgent.analyzeQuery q).chartType = "pie") ∧
    (DelegatingAgent.analyzeQuery q).chartType =
      (if strIncludes (strToLower q) "pie" then "pie"
       else if strIncludes (strToLower q) "line" then "line"
       else if strIncludes (strToLower q) "doughnut" then "doughnut"
       else "bar") := by
  refine ⟨fun hp hg => ⟨?_, ?_⟩, rfl⟩
  · simp [DelegatingAgent.analyzeQuery, hp]
  · simp [DelegatingAgent.analyzeQuery, hp]

/-- Witness for C7: a query containing "pie", "line" and "graph" still
gets chart type "pie". -/
theorem claim_C7_witness :
    strIncludes (strToLower "Pie or line graph of sales") "pie" = true ∧
    strIncludes (strToLower "Pie or line graph of sales") "graph" = true ∧
    (DelegatingAgent.analyzeQuery "Pie or line graph of sales").useChart = true ∧
    (DelegatingAgent.analyzeQuery "Pie or line graph of sales").chartType = "pie" :=
  ⟨by decide, by decide,
    ((claim_C7_chartType_priority "Pie or line graph of sales").1 (by decide) (by decide)).1,
    ((claim_C7_chartType_priority "Pie or line graph of sales").1 (by decide) (by decide)).2⟩

/-- C8: a query containing none of the retrieval keywords and none of
the visualization keywords (after lower-casing) routes to neither
capability and falls through to Direct. -/
theorem claim_C8_unmatched_routes_direct (env : Env) (q t : String)
    (k1 : strIncludes (strToLower q) "what" = false)
    (k2 : strIncludes (strToLower q) "how" = false)
    (k3 : strIncludes (strToLower q) "why" = false)
    (k4 : strIncludes (strToLower q) "search" = false)
    (k5 : strIncludes (strToLower q) "find" = false)
    (k6 : strIncludes (strToLower q) "machine learning" = false)
    (k7 : strIncludes (strToLower q) "neural network" = false)
    (k8 : strIncludes (strToLower q) "deep learning" = false)
    (k9 : strIncludes (strToLower q) "ai" = false)
    (k10 : strIncludes (strToLower q) "chart" = false)
    (k11 : strIncludes (strToLower q) "graph" = false)
    (k12 : strIncludes (strToLower q) "visualize" = false)
    (k13 : strIncludes (strToLower q) "plot" = false)
    (k14 : strIncludes (strToLower q) "bar" = false)
    (k15 : strIncludes (strToLower q) "pie" = false)
    (k16 : strIncludes (strToLower q) "line" = false)
    (k17 : strIncludes (strToLower q) "doughnut" = false) :
    (DelegatingAgent.analyzeQuery q).useRAG = false ∧
    (DelegatingAgent.analyzeQuery q).useChart = false ∧
    (DelegatingAgent.processQuery env q t).toolsUsed = ["Direct"] := by
  have hr : (DelegatingAgent.analyzeQuery q).useRAG = false := by
    simp [DelegatingAgent.analyzeQuery, k1, k2, k3, k4, k5, k6, k7, k8, k9]
  have hc : (DelegatingAgent.analyzeQuery q).useChart = false := by
    simp [DelegatingAgent.analyzeQuery, k10, k11, k12, k13, k14, k15, k16, k17]
  exact ⟨hr, hc, by rw [processQuery_direct env q t hr hc]⟩

/-- Witness for C8: the empty string routes to Direct. -/
theorem claim_C8_witness :
    strIncludes (strToLower "") "what" = false ∧
    (DelegatingAgent.analyzeQuery "").useRAG = false ∧
    (DelegatingAgent.analyzeQuery "").useChart = false ∧
    (DelegatingAgent.processQuery mockEnv "" "tenant1").toolsUsed = ["Direct"] := by
  have h := claim_C8_unmatched_routes_direct mockEnv "" "tenant1"
    (by decide) (by decide) (by decide) (by decide) (by decide) (by decide) (by decide) (by decide)
    (by decide) (by decide) (by decide) (by decide) (by decide) (by decide) (by decide) (by decide)
    (by decide)
  exact ⟨by decide, h.1, h.2.1, h.2.2⟩

/-- C9: with the store fixed, running the orchestrator against two
different (non-faulting) language models yields identical fileIds,
chartConfig (hence chartConfig.type) and toolsUsed — routing and
document selection are stable; only the answer text can differ. -/
theorem claim_C9_routing_stability
    (search : String → String → Nat → Except String (List Document))
    (jp : String → Except String ParsedChartInput)
    (llm1 llm2 : String → String → Except String String) (q t : String)
    (h1 : ∀ c u, ∃ s, llm1 c u = .ok s) (h2 : ∀ c u, ∃ s, llm2 c u = .ok s) :
    (DelegatingAgent.processQuery ⟨search, llm1, jp⟩ q t).fileIds =
      (DelegatingAgent.processQuery ⟨search, llm2, jp⟩ q t).fileIds ∧
    (DelegatingAgent.processQuery ⟨search, llm1, jp⟩ q t).chartConfig =
      (DelegatingAgent.processQuery ⟨search, llm2, jp⟩ q t).chartConfig ∧
    Option.map ChartConfig.type (DelegatingAgent.processQuery ⟨search, llm1, jp⟩ q t).chartConfig =
      Option.map ChartConfig.type (DelegatingAgent.processQuery ⟨search, llm2, jp⟩ q t).chartConfig ∧
    (DelegatingAgent.processQuery ⟨search, llm1, jp⟩ q t).toolsUsed =
      (DelegatingAgent.processQuery ⟨search, llm2, jp⟩ q t).toolsUsed := by
  obtain ⟨hf, hrefs⟩ := rag_llm_stable search jp llm1 llm2 q t h1 h2
  cases hA : (DelegatingAgent.analyzeQuery q).useRAG <;>
    cases hB : (DelegatingAgent.analyzeQuery q).useChart
  · rw [processQuery_direct ⟨search, llm1, jp⟩ q t hA hB,
      processQuery_direct ⟨search, llm2, jp⟩ q t hA hB]
    simp
  · rw [processQuery_chartOnly ⟨search, llm1, jp⟩ q t hA hB,
      processQuery_chartOnly ⟨search, llm2, jp⟩ q t hA hB]
    simp
  · rw [processQuery_ragOnly ⟨search, llm1, jp⟩ q t hA hB,
      processQuery_ragOnly ⟨search, llm2, jp⟩ q t hA hB]
    simp [hf]
  · rw [processQuery_both ⟨search, llm1, jp⟩ q t hA hB,
      processQuery_both ⟨search, llm2, jp⟩ q t hA hB]
    simp [hf]

/-- Witness for C9: two language models giving different fixed answers
leave fileIds, chartConfig and toolsUsed unchanged. -/
theorem claim_C9_witness :
    (∀ c u, ∃ s, llmA c u = .ok s) ∧
    (∀ c u, ∃ s, llmB c u = .ok s) ∧
    ((DelegatingAgent.processQuery ⟨mockSearch, llmA, jpErr⟩ "what is a bar chart" "tenant1").fileIds =
      (DelegatingAgent.processQuery ⟨mockSearch, llmB, jpErr⟩ "what is a bar chart" "tenant1").fileIds ∧
     (DelegatingAgent.processQuery ⟨mockSearch, llmA, jpErr⟩ "what is a bar chart" "tenant1").chartConfig =
      (DelegatingAgent.processQuery ⟨mockSearch, llmB, jpErr⟩ "what is a bar chart" "tenant1").chartConfig ∧
     Option.map ChartConfig.type
       (DelegatingAgent.processQuery ⟨mockSearch, llmA, jpErr⟩ "what is a bar chart" "tenant1").chartConfig =
      Option.map ChartConfig.type
       (DelegatingAgent.processQuery ⟨mockSearch, llmB, jpErr⟩ "what is a bar chart" "tenant1").chartConfig ∧
     (DelegatingAgent.processQuery ⟨mockSearch, llmA, jpErr⟩ "what is a bar chart" "tenant1").toolsUsed =
      (DelegatingAgent.processQuery ⟨mockSearch, llmB, jpErr⟩ "what is a bar chart" "tenant1").toolsUsed) :=
  ⟨fun _ _ => ⟨"Answer variant A.", rfl⟩, fun _ _ => ⟨"Answer variant B.", rfl⟩,
    claim_C9_routing_stability mockSearch jpErr llmA llmB "what is a bar chart" "tenant1"
      (fun _ _ => ⟨"Answer variant A.", rfl⟩) (fun _ _ => ⟨"Answer variant B.", rfl⟩)⟩

/-- C10 counterexample: the chart tool is not total in the claimed
sense — an object input whose `data` is undefined yields
`success: false` (reading `data.labels` throws a TypeError that the
catch converts), and for chart types that are `Object.prototype`
property names the JS lookup finds a truthy inherited member, so
neither the palette nor the sample data falls back to the bar entries. -/
theorem claim_C10_counterexample :
    (ChartTool.invoke jpErr (.obj "bar" JsData.undef none)).success = false ∧
    ChartTool.getColors "constructor" ≠ ChartTool.getColors "bar" ∧
    ChartTool.generateSampleData "toString" ≠ ChartTool.generateSampleData "bar" := by
  decide

/-- C10 amended: ChartTool.invoke never throws; an object input whose
`data` is a present object (or an inherited prototype member, whose
field reads all yield undefined) succeeds with chartConfig.type equal
to the given chartType; the palette and sample data fall back to the
bar entries for unknown chart types that are not `Object.prototype`
property names; and `success: false` occurs exactly when reading the
input fails — an unparsable string input, or an input whose
destructured `data` is undefined. -/
theorem claim_C10_amended_chart_tool_partial_totality
    (jp : String → Except String ParsedChartInput)
    (ct pm : String) (d : ChartData) (topt : Option String) :
    (ChartTool.invoke jp (.obj ct (JsData.obj d) topt)).success = true ∧
    Option.map ChartConfig.type
      (ChartTool.invoke jp (.obj ct (JsData.obj d) topt)).chartConfig = some ct ∧
    (ChartTool.invoke jp (.obj ct (JsData.protoMember pm) topt)).success = true ∧
    (ct ≠ "bar" → ct ≠ "line" → ct ≠ "pie" → ct ≠ "doughnut" →
      objectProtoProps.contains ct = false →
      ChartTool.getColors ct = ChartTool.getColors "bar" ∧
      ChartTool.generateSampleData ct = ChartTool.generateSampleData "bar") ∧
    (ChartTool.invoke jp (.obj ct JsData.undef topt)).success = false ∧
    (∀ v : ChartInputValue, (ChartTool.invoke jp v).success = false →
      (∃ s e, v = .str s ∧ jp s = .error e) ∨
      (∃ ct2 t2, v = .obj ct2 JsData.undef t2) ∨
      (∃ s p, v = .str s ∧ jp s = .ok p ∧ p.data = JsData.undef)) := by
  refine ⟨rfl, rfl, rfl, fun hb hl hp hd hpp => ?_, rfl, ?_⟩
  · have hpp2 : ct ∉ objectProtoProps := by simpa using hpp
    exact ⟨by simp [ChartTool.getColors, hb, hl, hp, hd, hpp2],
           by simp [ChartTool.generateSampleData, hb, hl, hp, hd, hpp2]⟩
  · intro v hv
    cases v with
    | obj ct2 d2 t2 =>
      cases d2 with
      | undef => exact Or.inr (Or.inl ⟨ct2, t2, rfl⟩)
      | obj d3 =>
        simp [ChartTool.invoke, ChartTool.callObj, ChartTool.generateChartConfig] at hv
      | protoMember n =>
        simp [ChartTool.invoke, ChartTool.callObj, ChartTool.generateChartConfig] at hv
    | str s =>
      cases hjs : jp s with
      | ok p =>
        cases hpd : p.data with
        | undef => exact Or.inr (Or.inr ⟨s, p, rfl, hjs, hpd⟩)
        | obj d3 =>
          simp [ChartTool.invoke, hjs, ChartTool.callObj, ChartTool.generateChartConfig, hpd] at hv
        | protoMember n =>
          simp [ChartTool.invoke, hjs, ChartTool.callObj, ChartTool.generateChartConfig, hpd] at hv
      | error e => exact Or.inl ⟨s, e, rfl, hjs⟩

/-- Witness for the amended C10: a non-enum, non-prototype chart type
"radar" succeeds with the bar fallbacks, a prototype-member data value
still succeeds, undefined data fails, and a failing string parse is
covered by the failure characterization. -/
theorem claim_C10_witness :
    (ChartTool.invoke jpErr (.obj "radar" (JsData.obj ⟨none, none, none⟩) none)).success = true ∧
    Option.map ChartConfig.type
      (ChartTool.invoke jpErr (.obj "radar" (JsData.obj ⟨none, none, none⟩) none)).chartConfig =
      some "radar" ∧
    (ChartTool.invoke jpErr (.obj "radar" (JsData.protoMember "valueOf") none)).success = true ∧
    ChartTool.getColors "radar" = ChartTool.getColors "bar" ∧
    ChartTool.generateSampleData "radar" = ChartTool.generateSampleData "bar" ∧
    (ChartTool.invoke jpErr (.obj "radar" JsData.undef none)).success = false ∧
    ((∃ s e, ChartInputValue.str "not json" = ChartInputValue.str s ∧ jpErr s = .error e) ∨
     (∃ ct2 t2, ChartInputValue.str "not json" = ChartInputValue.obj ct2 JsData.undef t2) ∨
     (∃ s p, ChartInputValue.str "not json" = ChartInputValue.str s ∧ jpErr s = .ok p ∧
       p.data = JsData.undef)) := by
  have h := claim_C10_amended_chart_tool_partial_totality jpErr "radar" "valueOf"
    ⟨none, none, none⟩ none
  exact ⟨h.1, h.2.1, h.2.2.1,
    (h.2.2.2.1 (by decide) (by decide) (by decide) (by decide) (by decide)).1,
    (h.2.2.2.1 (by decide) (by decide) (by decide) (by decide) (by decide)).2,
    h.2.2.2.2.1,
    h.2.2.2.2.2 (.str "not json") (by decide)⟩

end RAGLangGraph
